import Mathlib

/-!
Verification of the Exposure Calculation & Interpretation Engine
(src/app.py of the steel-exposure tool).

The engine is embedded shallowly over ℚ: Python floats in the source hold
only small decimal constants and the claims are about the ideal arithmetic,
so exact rational arithmetic is the faithful model.  Each definition below
names the source variable or expression it embeds (line numbers refer to
src/app.py).
-/

/-- Pollutant selection (sidebar selectbox, line 33). -/
inductive Pollutant
  | NO2
  | PM25
deriving DecidableEq

/-- Facility-impact tier, resolved from the profile string (lines 50-55). -/
inductive ImpactTier
  | High
  | Medium
  | Lower
deriving DecidableEq

/-- Activity level (sidebar selectbox, line 85). -/
inductive Activity
  | Resting
  | LightActivity
  | ModerateActivity
deriving DecidableEq

/-- Concern tier produced by the interpretation if-chains
(lines 154-174 and 191-209). -/
inductive Concern
  | Low
  | Moderate
  | High
deriving DecidableEq

/-- Python `s.startswith(pre)` : `pre` is a prefix of `s` (character-wise). -/
def startswith (s pre : String) : Bool :=
  pre.data.isPrefixOf s.data

/-- Lines 50-55: first-match resolution of the profile string to a tier;
anything not starting with "High" or "Medium" falls through to "Lower". -/
def tier_of_profile (profile : String) : ImpactTier :=
  if startswith profile "High" then ImpactTier.High
  else if startswith profile "Medium" then ImpactTier.Medium
  else ImpactTier.Lower

/-- Lines 37-48: default outdoor concentration table, fully populated over
the 2×3 product of pollutant and tier. -/
def defaults : Pollutant → ImpactTier → ℚ
  | Pollutant.NO2, ImpactTier.High => 60
  | Pollutant.NO2, ImpactTier.Medium => 35
  | Pollutant.NO2, ImpactTier.Lower => 20
  | Pollutant.PM25, ImpactTier.High => 20
  | Pollutant.PM25, ImpactTier.Medium => 12
  | Pollutant.PM25, ImpactTier.Lower => 8

/-- Line 88: ventilation rate in m³/hr per activity level. -/
def vent_m3_per_hr : Activity → ℚ
  | Activity.Resting => 1/2
  | Activity.LightActivity => 1
  | Activity.ModerateActivity => 8/5

/-- Line 89: `vent_m3_per_day = vent_m3_per_hr * 24`. -/
def vent_m3_per_day (a : Activity) : ℚ :=
  vent_m3_per_hr a * 24

/-- Line 77: `hours_in = 24 - hours_out` (the slider on line 76 yields an
integer; the value is used in rational arithmetic). -/
def hours_in (hours_out : ℕ) : ℚ :=
  24 - (hours_out : ℚ)

/-- Line 94: `c_indoor = c_outdoor * infiltration`. -/
def c_indoor (c_outdoor infiltration : ℚ) : ℚ :=
  c_outdoor * infiltration

/-- Line 95: `c_twa_24h = (c_outdoor*hours_out + c_indoor*hours_in) / 24.0`. -/
def c_twa_24h (c_outdoor : ℚ) (hours_out : ℕ) (infiltration : ℚ) : ℚ :=
  (c_outdoor * (hours_out : ℚ) + c_indoor c_outdoor infiltration * hours_in hours_out) / 24

/-- Line 99: PM2.5 inhaled dose, `c_twa_24h * vent_m3_per_day` (µg/day). -/
def dose_ug_per_day (twa : ℚ) (a : Activity) : ℚ :=
  twa * vent_m3_per_day a

/-- Line 102: NO2 integrated-exposure proxy, `c_twa_24h * 24.0` (ppb·hours/day). -/
def dose_ppb_hours (twa : ℚ) : ℚ :=
  twa * 24

/-- The input record assembled from the sidebar controls. -/
structure ExposureInput where
  pollutant : Pollutant
  c_outdoor : ℚ
  hours_out : ℕ
  infiltration : ℚ
  activity : Activity

/-- The derived exposure quantities (lines 94-102). -/
structure ExposureResult where
  indoor : ℚ
  twa : ℚ
  doseMetric : ℚ
deriving DecidableEq

/-- Lines 94-102 as one function: the exposure calculation performs no range
check of any kind — it is a total function of its inputs.  The dose metric
branches on the pollutant exactly as the `if "PM2.5" in pollutant` on line 98. -/
def computeExposure (i : ExposureInput) : ExposureResult :=
  { indoor := c_indoor i.c_outdoor i.infiltration
    twa := c_twa_24h i.c_outdoor i.hours_out i.infiltration
    doseMetric :=
      match i.pollutant with
      | Pollutant.PM25 => dose_ug_per_day (c_twa_24h i.c_outdoor i.hours_out i.infiltration) i.activity
      | Pollutant.NO2 => dose_ppb_hours (c_twa_24h i.c_outdoor i.hours_out i.infiltration) }

/-- Line 107. -/
def NO2_1hr_ppb : ℚ := 100

/-- Line 108. -/
def NO2_ann_ppb : ℚ := 53

/-- Line 109. -/
def PM25_24hr_ug : ℚ := 35

/-- Line 110. -/
def PM25_ann_ug : ℚ := 9

/-- Line 138: `pct_1hr = 100.0 * c_outdoor / NO2_1hr_ppb` — computed from the
OUTDOOR concentration, not the time-weighted average. -/
def pct_1hr (c_outdoor : ℚ) : ℚ :=
  100 * c_outdoor / NO2_1hr_ppb

/-- Line 139: `pct_ann = 100.0 * c_twa_24h / NO2_ann_ppb` (NO2 branch). -/
def pct_ann_no2 (twa : ℚ) : ℚ :=
  100 * twa / NO2_ann_ppb

/-- Line 177: `pct_24 = 100.0 * c_twa_24h / PM25_24hr_ug`. -/
def pct_24 (twa : ℚ) : ℚ :=
  100 * twa / PM25_24hr_ug

/-- Line 178: `pct_ann = 100.0 * c_twa_24h / PM25_ann_ug` (PM2.5 branch). -/
def pct_ann_pm25 (twa : ℚ) : ℚ :=
  100 * twa / PM25_ann_ug

/-- The tier if-chain, duplicated verbatim in both pollutant branches
(lines 154/162/169 and 191/198/204): High when either percentage is ≥ 100,
else Moderate when either is ≥ 50, else Low. -/
def concern_tier (p1 p2 : ℚ) : Concern :=
  if p1 ≥ 100 ∨ p2 ≥ 100 then Concern.High
  else if p1 ≥ 50 ∨ p2 ≥ 50 then Concern.Moderate
  else Concern.Low

/-- Lines 154-174: NO2 tiering applied to `pct_1hr` and `pct_ann`. -/
def no2_concern (c_outdoor twa : ℚ) : Concern :=
  concern_tier (pct_1hr c_outdoor) (pct_ann_no2 twa)

/-- Lines 191-209: PM2.5 tiering applied to `pct_24` and `pct_ann`. -/
def pm25_concern (twa : ℚ) : Concern :=
  concern_tier (pct_24 twa) (pct_ann_pm25 twa)

/-- Lines 156-161, 164-167, 171-174: the NO2 `recs` lists. -/
def no2_recs : Concern → List String
  | Concern.High =>
    [ "Reduce outdoor exertion/time near the facility during peak hours.",
      "Keep windows closed; use HVAC on recirculation if available.",
      "Run a HEPA air purifier indoors (or upgrade HVAC filter if compatible).",
      "Check local AQI/alerts and shift outdoor activities to cleaner times." ]
  | Concern.Moderate =>
    [ "Limit prolonged outdoor activity if you notice symptoms or air smells/looks hazy.",
      "Keep indoor air cleaner: close windows during poor air periods; consider filtration.",
      "If possible, choose walking routes/activities farther from busy roads and facility perimeter." ]
  | Concern.Low =>
    [ "Maintain good indoor ventilation/filtration habits and monitor conditions during stagnant/low-wind days.",
      "Use this tool to test: time outdoors vs infiltration vs activity level." ]

/-- Lines 193-197, 200-203, 206-209: the PM2.5 `recs` lists. -/
def pm25_recs : Concern → List String
  | Concern.High =>
    [ "Reduce outdoor exertion/time when air is smoky/hazy or during alerts.",
      "Keep windows closed during poor air periods; run a HEPA purifier indoors.",
      "If you must be outdoors, take breaks indoors and avoid heavy exertion." ]
  | Concern.Moderate =>
    [ "Use a HEPA purifier or improve HVAC filtration if possible.",
      "Shift outdoor exercise to times with cleaner air (after wind picks up / after a front)." ]
  | Concern.Low =>
    [ "Monitor conditions on stagnant days; indoor filtration remains a strong lever.",
      "Use this tool to compare: time outdoors vs infiltration vs activity level." ]

/-- Recommendation selection keyed by (pollutant, concern tier). -/
def recs : Pollutant → Concern → List String
  | Pollutant.NO2, c => no2_recs c
  | Pollutant.PM25, c => pm25_recs c

/-- The interpretation record for one evaluation: percentages, tier,
recommendations. -/
structure Interp where
  pShort : ℚ
  pLong : ℚ
  concern : Concern
  recList : List String

/-- Lines 137-209 as one function: the pollutant branch computes the two
percentages, tiers them with the if-chain, and picks the matching `recs`
list.  The PM2.5 branch never reads the outdoor concentration. -/
def interpret : Pollutant → ℚ → ℚ → Interp
  | Pollutant.NO2, c_outdoor, twa =>
    { pShort := pct_1hr c_outdoor
      pLong := pct_ann_no2 twa
      concern := no2_concern c_outdoor twa
      recList := no2_recs (no2_concern c_outdoor twa) }
  | Pollutant.PM25, _, twa =>
    { pShort := pct_24 twa
      pLong := pct_ann_pm25 twa
      concern := pm25_concern twa
      recList := pm25_recs (pm25_concern twa) }

/-- Claim C1, code evaluated at the failing input: the source performs no
range validation anywhere in the exposure calculation — fed the out-of-range
outdoorConcentration −5 (NO2, 2 h outdoors, infiltration 0.6, resting), it
returns a fully computed result (indoor −3, TWA −19/6, dose −76) instead of
rejecting with an InvalidInput error. -/
theorem c1_out_of_range_computes :
    computeExposure ⟨Pollutant.NO2, -5, 2, 3/5, Activity.Resting⟩ =
      { indoor := -3, twa := -19/6, doseMetric := -76 } := by
  norm_num [computeExposure, c_indoor, c_twa_24h, hours_in, dose_ppb_hours,
    ExposureResult.mk.injEq]

/-- Claim C2: the NO2 short-term percentage is 100 × outdoorConcentration /
100 (from the outdoor value) and the long-term one 100 × TWA / 53; the PM2.5
short-term percentage is 100 × TWA / 35 and the long-term one 100 × TWA / 9
(both from the TWA). -/
theorem c2_benchmark_percentages (c_outdoor twa : ℚ) :
    (interpret Pollutant.NO2 c_outdoor twa).pShort = 100 * c_outdoor / 100 ∧
    (interpret Pollutant.NO2 c_outdoor twa).pLong = 100 * twa / 53 ∧
    (interpret Pollutant.PM25 c_outdoor twa).pShort = 100 * twa / 35 ∧
    (interpret Pollutant.PM25 c_outdoor twa).pLong = 100 * twa / 9 :=
  ⟨rfl, rfl, rfl, rfl⟩

/-- Claim C3: for both pollutants the concern tier is the shared if-chain on
the two percentages; it is High iff either percentage is ≥ 100, Moderate iff
not High and either is ≥ 50, Low otherwise; the thresholds are inclusive
(100 → High, 50 → Moderate) and 49.999 classifies Low. -/
theorem c3_tier_classification :
    (∀ (p : Pollutant) (c_outdoor twa : ℚ),
      (interpret p c_outdoor twa).concern =
        concern_tier (interpret p c_outdoor twa).pShort (interpret p c_outdoor twa).pLong) ∧
    (∀ p1 p2 : ℚ, (concern_tier p1 p2 = Concern.High ↔ p1 ≥ 100 ∨ p2 ≥ 100)) ∧
    (∀ p1 p2 : ℚ, (concern_tier p1 p2 = Concern.Moderate ↔
      ¬(p1 ≥ 100 ∨ p2 ≥ 100) ∧ (p1 ≥ 50 ∨ p2 ≥ 50))) ∧
    (∀ p1 p2 : ℚ, (concern_tier p1 p2 = Concern.Low ↔
      ¬(p1 ≥ 100 ∨ p2 ≥ 100) ∧ ¬(p1 ≥ 50 ∨ p2 ≥ 50))) ∧
    concern_tier 100 0 = Concern.High ∧
    concern_tier 0 100 = Concern.High ∧
    concern_tier 50 0 = Concern.Moderate ∧
    concern_tier (49999/1000) (49999/1000) = Concern.Low := by
  refine ⟨fun p c t => by cases p <;> rfl, ?_, ?_, ?_,
    by norm_num [concern_tier], by norm_num [concern_tier],
    by norm_num [concern_tier], by norm_num [concern_tier]⟩ <;>
  · intro p1 p2
    by_cases h1 : p1 ≥ 100 ∨ p2 ≥ 100 <;> by_cases h2 : p1 ≥ 50 ∨ p2 ≥ 50 <;>
      simp [concern_tier, h1, h2]

/-- Claim C4, Scenario 1 (NO2, outdoor 60, 2 h outdoors, infiltration 0.6,
resting): indoor 36, TWA 38, percentShortTerm 60, percentLongTerm 3800/53
(between 71.69 and 71.70, ≈71.7), tier Moderate. -/
theorem c4_scenario1_no2 :
    (computeExposure ⟨Pollutant.NO2, 60, 2, 3/5, Activity.Resting⟩).indoor = 36 ∧
    (computeExposure ⟨Pollutant.NO2, 60, 2, 3/5, Activity.Resting⟩).twa = 38 ∧
    (interpret Pollutant.NO2 60 38).pShort = 60 ∧
    (interpret Pollutant.NO2 60 38).pLong = 3800 / 53 ∧
    (7169 : ℚ) / 100 < 3800 / 53 ∧ (3800 : ℚ) / 53 < 7170 / 100 ∧
    (interpret Pollutant.NO2 60 38).concern = Concern.Moderate := by
  refine ⟨?_, ?_, ?_, ?_, by norm_num, by norm_num, ?_⟩ <;>
    norm_num [computeExposure, c_indoor, c_twa_24h, hours_in, interpret,
      no2_concern, concern_tier, pct_1hr, pct_ann_no2, NO2_1hr_ppb, NO2_ann_ppb]

/-- Claim C5, Scenario 2 (PM2.5, outdoor 20, 2 h outdoors, infiltration 0.6,
light activity): indoor 12, TWA 38/3 (≈12.67), ventilation 24 m³/day, dose
304 µg/day, percentShortTerm 760/21 (between 36.19 and 36.20, ≈36.2),
percentLongTerm 3800/27 (between 140.7 and 140.8, ≈140.7), tier High. -/
theorem c5_scenario2_pm25 :
    (computeExposure ⟨Pollutant.PM25, 20, 2, 3/5, Activity.LightActivity⟩).indoor = 12 ∧
    (computeExposure ⟨Pollutant.PM25, 20, 2, 3/5, Activity.LightActivity⟩).twa = 38 / 3 ∧
    vent_m3_per_day Activity.LightActivity = 24 ∧
    (computeExposure ⟨Pollutant.PM25, 20, 2, 3/5, Activity.LightActivity⟩).doseMetric = 304 ∧
    (interpret Pollutant.PM25 20 (38/3)).pShort = 760 / 21 ∧
    (3619 : ℚ) / 100 < 760 / 21 ∧ (760 : ℚ) / 21 < 3620 / 100 ∧
    (interpret Pollutant.PM25 20 (38/3)).pLong = 3800 / 27 ∧
    (1407 : ℚ) / 10 < 3800 / 27 ∧ (3800 : ℚ) / 27 < 1408 / 10 ∧
    (interpret Pollutant.PM25 20 (38/3)).concern = Concern.High := by
  refine ⟨?_, ?_, ?_, ?_, ?_, by norm_num, by norm_num, ?_, by norm_num, by norm_num, ?_⟩ <;>
    norm_num [computeExposure, c_indoor, c_twa_24h, hours_in, dose_ug_per_day,
      vent_m3_per_day, vent_m3_per_hr, interpret, pm25_concern, concern_tier,
      pct_24, pct_ann_pm25, PM25_24hr_ug, PM25_ann_ug]

/-- Claim C6: for in-range inputs, hoursIndoors = 24 − hoursOutdoors, the TWA
lies between min and max of the outdoor and indoor concentrations, and at the
boundaries hoursOutdoors = 0 / 24 the TWA equals the indoor / outdoor
concentration exactly. -/
theorem c6_twa_bounds (c_outdoor f : ℚ) (h : ℕ) (hh : h ≤ 24)
    (hc : 0 ≤ c_outdoor) (hf0 : 0 ≤ f) (hf1 : f ≤ 1) :
    hours_in h = 24 - (h : ℚ) ∧
    min c_outdoor (c_indoor c_outdoor f) ≤ c_twa_24h c_outdoor h f ∧
    c_twa_24h c_outdoor h f ≤ max c_outdoor (c_indoor c_outdoor f) ∧
    (h = 0 → c_twa_24h c_outdoor h f = c_indoor c_outdoor f) ∧
    (h = 24 → c_twa_24h c_outdoor h f = c_outdoor) := by
  have hq : (h : ℚ) ≤ 24 := by exact_mod_cast hh
  have hq0 : (0 : ℚ) ≤ (h : ℚ) := Nat.cast_nonneg h
  have hci : c_indoor c_outdoor f ≤ c_outdoor := by
    unfold c_indoor; nlinarith
  refine ⟨rfl, ?_, ?_, ?_, ?_⟩
  · rw [min_eq_right hci]
    unfold c_twa_24h c_indoor hours_in
    rw [le_div_iff₀ (by norm_num : (0:ℚ) < 24)]
    nlinarith [mul_nonneg hq0 (mul_nonneg hc (sub_nonneg.mpr hf1))]
  · rw [max_eq_left hci]
    unfold c_twa_24h c_indoor hours_in
    rw [div_le_iff₀ (by norm_num : (0:ℚ) < 24)]
    nlinarith [mul_nonneg (sub_nonneg.mpr hq) (mul_nonneg hc (sub_nonneg.mpr hf1))]
  · intro h0; subst h0
    unfold c_twa_24h hours_in
    push_cast
    ring
  · intro h24; subst h24
    unfold c_twa_24h hours_in
    push_cast
    ring

/-- Witness for C6 at Scenario 1's input. -/
theorem c6_twa_bounds_witness :
    (2 : ℕ) ≤ 24 ∧ (0 : ℚ) ≤ 60 ∧
    min (60 : ℚ) (c_indoor 60 (3/5)) ≤ c_twa_24h 60 2 (3/5) := by
  exact ⟨by norm_num, by norm_num,
    (c6_twa_bounds 60 (3/5) 2 (by norm_num) (by norm_num) (by norm_num)
      (by norm_num)).2.1⟩

/-- Claim C7: with everything else fixed, more hours outdoors strictly
increases the TWA when the outdoor concentration exceeds the indoor one, and
strictly decreases it in the opposite case. -/
theorem c7_twa_monotone (c_outdoor f : ℚ) (h h2 : ℕ) (hlt : h < h2) (hh2 : h2 ≤ 24) :
    (c_indoor c_outdoor f < c_outdoor →
      c_twa_24h c_outdoor h f < c_twa_24h c_outdoor h2 f) ∧
    (c_outdoor < c_indoor c_outdoor f →
      c_twa_24h c_outdoor h2 f < c_twa_24h c_outdoor h f) := by
  have hq : (h : ℚ) < (h2 : ℚ) := by exact_mod_cast hlt
  constructor <;> intro hio <;>
  · unfold c_twa_24h c_indoor hours_in at *
    rw [div_lt_div_iff₀ (by norm_num : (0:ℚ) < 24) (by norm_num : (0:ℚ) < 24)]
    nlinarith

/-- Witness for C7 at hours 2 < 3, outdoor 60, infiltration 0.6. -/
theorem c7_twa_monotone_witness :
    (2 : ℕ) < 3 ∧ c_indoor 60 (3/5) < 60 ∧
    c_twa_24h 60 2 (3/5) < c_twa_24h 60 3 (3/5) := by
  have hci : c_indoor 60 (3/5) < (60 : ℚ) := by norm_num [c_indoor]
  exact ⟨by norm_num, hci,
    (c7_twa_monotone 60 (3/5) 2 3 (by norm_num) (by norm_num)).1 hci⟩

/-- Claim C8: indoorConcentration = outdoorConcentration × infiltrationFactor,
it never exceeds the outdoor concentration for in-range inputs, and a zero
infiltration factor yields zero indoors regardless of the outdoor value. -/
theorem c8_indoor_le_outdoor (c_outdoor f : ℚ) (hc : 0 ≤ c_outdoor)
    (hf0 : 0 ≤ f) (hf1 : f ≤ 1) :
    c_indoor c_outdoor f = c_outdoor * f ∧
    c_indoor c_outdoor f ≤ c_outdoor ∧
    ∀ c2 : ℚ, c_indoor c2 0 = 0 := by
  refine ⟨rfl, ?_, fun c2 => mul_zero c2⟩
  unfold c_indoor; nlinarith

/-- Witness for C8 at outdoor 60, infiltration 0.6. -/
theorem c8_indoor_le_outdoor_witness :
    (0 : ℚ) ≤ 60 ∧ c_indoor 60 (3/5) ≤ 60 := by
  exact ⟨by norm_num,
    (c8_indoor_le_outdoor 60 (3/5) (by norm_num) (by norm_num) (by norm_num)).2.1⟩

/-- Claim C9: every (pollutant, concern tier) combination yields a fixed
non-empty recommendation list of 2 to 4 strings. -/
theorem c9_recs_populated :
    ∀ (p : Pollutant) (c : Concern),
      recs p c ≠ [] ∧ 2 ≤ (recs p c).length ∧ (recs p c).length ≤ 4 := by
  intro p c
  cases p <;> cases c <;>
    exact ⟨by simp [recs, no2_recs, pm25_recs],
      by norm_num [recs, no2_recs, pm25_recs],
      by norm_num [recs, no2_recs, pm25_recs]⟩

/-- Claim C10: profile-to-tier resolution is total and first-match — a string
starting with "High" resolves High, otherwise one starting with "Medium"
resolves Medium, and every other string falls through to Lower — and the
default-concentration lookup succeeds (with a positive constant) for every
profile string and pollutant. -/
theorem c10_profile_resolution (s : String) (p : Pollutant) :
    (startswith s "High" = true → tier_of_profile s = ImpactTier.High) ∧
    (startswith s "High" = false → startswith s "Medium" = true →
      tier_of_profile s = ImpactTier.Medium) ∧
    (startswith s "High" = false → startswith s "Medium" = false →
      tier_of_profile s = ImpactTier.Lower) ∧
    0 < defaults p (tier_of_profile s) := by
  refine ⟨?_, ?_, ?_, ?_⟩
  · intro h1; simp [tier_of_profile, h1]
  · intro h1 h2; simp [tier_of_profile, h1, h2]
  · intro h1 h2; simp [tier_of_profile, h1, h2]
  · cases p <;> cases htier : tier_of_profile s <;> norm_num [defaults]

/-- Witness for C10 on the repository's "Medium impact example" anchor string
and an unrecognized string. -/
theorem c10_profile_resolution_witness :
    tier_of_profile "Medium impact example" = ImpactTier.Medium ∧
    (0 : ℚ) < defaults Pollutant.PM25 (tier_of_profile "Nucor mini-mill") := by
  exact ⟨(c10_profile_resolution "Medium impact example" Pollutant.NO2).2.1 rfl rfl,
    (c10_profile_resolution "Nucor mini-mill" Pollutant.PM25).2.2.2⟩
